import Mathlib

/-!
# Verification of the DIOR survey-analytics pipeline

Shallow embedding of the analytical core of the DIOR repository
(`analisis_dior.py`, `correlacion.py`, `clusters.py`, `config.py`,
`utils.py`) together with proofs about the embedded definitions.

Survey data is tabular: a `DF` (data frame) is a list of column names
plus a list of rows, each row a list of cells.  A cell (`Celda`) is
either free text (a raw survey answer), a number (an encoded answer or
any numeric value), or null (pandas `NaN`).
-/

/-- A data-frame cell: raw survey answers are text, encoded answers are
numbers, empty cells are null (pandas `NaN`). -/
inductive Celda where
  | texto (s : String)
  | numero (q : ℚ)
  | nulo
deriving DecidableEq, Repr

/-- A pandas DataFrame: named columns and a list of rows.  Well-formed
frames have every row of the same length as `cols`. -/
structure DF where
  cols : List String
  rows : List (List Celda)
deriving DecidableEq, Repr

/-- `df.empty` in pandas: true when the frame has no rows or no columns. -/
def DF.isVacio (df : DF) : Bool := df.rows.isEmpty || df.cols.isEmpty

/-- Numeric view of a cell; pandas numeric operations skip every
non-numeric / missing cell. -/
def Celda.toNum : Celda → Option ℚ
  | .numero q => some q
  | _ => none

/-- Mean of a list of rationals, `sum / length` (division by zero is 0,
only ever used on nonempty lists in the theorems below). -/
def listMean (l : List ℚ) : ℚ := l.sum / (l.length : ℚ)

/-- pandas mean with `skipna`: missing entries are dropped; the mean of
no values is `NaN` (here `none`). -/
def seriesMean (s : List (Option ℚ)) : Option ℚ :=
  let vs := s.filterMap id
  if vs.isEmpty then none else some (listMean vs)

namespace AnalisisDior

/-- `MAPEO_RESPUESTAS` of `analisis_dior.py` (lines 13-17): the 3-point
response vocabulary. -/
def MAPEO_RESPUESTAS : List (String × ℚ) :=
  [("DE ACUERDO", 3),
   ("NI DEACUERDO, NI EN DESACUERDO", 2),
   ("EN DESACUERDO", 1)]

/-- `DIMENSIONES` of `analisis_dior.py` (lines 20-58): the grouping of
question columns into named dimensions. -/
def DIMENSIONES : List (String × List String) :=
  [("Trabajo en equipo",
    ["1.1_A_GUSTO_TRABAJANDO_CON_OTRAS_GESTORAS",
     "1.2_LIBRE_EXPRESAR_IDEAS_SUGERENCIAS",
     "1.3_DECISIONES_IMPORTANTES_COMUNICADAS",
     "1.4_CONVERSACIONES_RESPETUOSAS"]),
   ("Liderazgo",
    ["2.1_LIDERAZGO_RESPESTUOSO",
     "2.2_OPORTUNIDAD_DE_PROPONER_IDEAS",
     "2.3_ESPACIOS_ADECUADOS_RETROALIMENTACION"]),
   ("Compromiso",
    ["3.1_GESTORAS_COMPROMETIDAS",
     "3.2_EQUIPO_UNIDO",
     "3.3_NORMAS_DE_SEGURIDAD_DOTACION"]),
   ("Valoración",
    ["4.1_LABOR_VALORADA",
     "4.2_ESFUERZO_IGUAL_DE_VALORADO",
     "4.3_HABILIDADES_RECONOCIDAS"]),
   ("Comunicación",
    ["5.1_DIALOGO_CON_RESPETO",
     "5.2_OPINION_TENIDA_EN_CUENTA",
     "5.3_EMOCIONES_TOMADES_ENSERIO"]),
   ("Recursos y condiciones",
    ["6.1_INSUMOS_HERRAMIENTAS_NECESARIAS",
     "6.2_ESPACIO_COMODO_SEGURO",
     "6.3_AUSENCIA_POR_URGENCIA"]),
   ("Bienestar",
    ["7.1_MOMENTOS_DE_PAUSA",
     "7.2_AUTOCUIDADO",
     "7.3_ESPACIOS_PARA_ALEGRIA",
     "7.4_TIEMPO_OBLIGACIONES_FAMILIARES"])]

/-- Cell-level semantics of
`df_prep[pregunta].map(MAPEO_RESPUESTAS).fillna(0)` (`analisis_dior.py`
line 90): a text cell is looked up in the vocabulary and any miss (text
not in the vocabulary, a null cell, or a non-text cell, for which the
dict lookup yields `NaN`) is filled with `0`. -/
def encodeCelda : Celda → Celda
  | .texto s => .numero ((MAPEO_RESPUESTAS.lookup s).getD 0)
  | _ => .numero 0

/-- Column assignment `df_prep[pregunta] = df_prep[pregunta].map(...)`
guarded by `if pregunta in df_prep.columns` (`analisis_dior.py` lines
89-90). -/
def encodeColumn (df : DF) (p : String) : DF :=
  if p ∈ df.cols then
    let i := df.cols.indexOf p
    { df with rows := df.rows.map (fun r => r.set i (encodeCelda (r.getD i .nulo))) }
  else df

/-- `preparar_datos` (`analisis_dior.py` lines 70-92): `None` for a null
or empty input, otherwise a copy of the frame with every present
question column of every dimension numerically encoded. -/
def preparar_datos (df : Option DF) : Option DF :=
  match df with
  | none => none
  | some d =>
    if d.isVacio then none
    else some (DIMENSIONES.foldl (fun acc dim => dim.2.foldl encodeColumn acc) d)

/-- The cells of row `r` at the columns `names` (row projection used by
`df[preguntas_existentes].mean(axis=1)`). -/
def selectCells (cols : List String) (names : List String) (r : List Celda) : List Celda :=
  names.map (fun p => r.getD (cols.indexOf p) .nulo)

/-- Row-wise pandas mean (`mean(axis=1)`, skipna). -/
def rowMeanCells (cells : List Celda) : Option ℚ :=
  seriesMean (cells.map Celda.toNum)

/-- `calcular_promedios_por_dimension` (`analisis_dior.py` lines
94-114): for every dimension whose configured questions intersect the
frame's columns, the mean over rows of the per-row mean over the present
question columns; dimensions with no present column produce no entry. -/
def calcular_promedios_por_dimension (df : DF) : List (String × Option ℚ) :=
  DIMENSIONES.filterMap (fun dim =>
    let existentes := dim.2.filter (fun p => p ∈ df.cols)
    if existentes.isEmpty then none
    else some (dim.1, seriesMean (df.rows.map (fun r => rowMeanCells (selectCells df.cols existentes r)))))

/-- `interpretar_promedio` (`analisis_dior.py` lines 116-131): the
three-band classification on the 1-3 scale. -/
def interpretar_promedio (valor : ℚ) : String :=
  if valor < 3/2 then "Desfavorable"
  else if valor < 5/2 then "Neutral"
  else "Favorable"

end AnalisisDior

namespace Utils

/-- `obtener_letra_a_indice` (`utils.py` lines 1-7): spreadsheet column
letter to zero-based index; `-1` for any other length. -/
def obtener_letra_a_indice (letra : String) : ℤ :=
  match letra.data with
  | [c] => (c.toNat : ℤ) - 65
  | [c1, c2] => ((c1.toNat : ℤ) - 65 + 1) * 26 + ((c2.toNat : ℤ) - 65)
  | _ => -1

/-- `interpretar_promedio` (`utils.py` lines 9-22): the five-band
classification on the 1-5 scale. -/
def interpretar_promedio (valor : ℚ) : String :=
  if valor < 3/2 then "Muy Desfavorable"
  else if valor < 5/2 then "Desfavorable"
  else if valor < 7/2 then "Neutral"
  else if valor < 9/2 then "Favorable"
  else "Muy Favorable"

end Utils

namespace Config

/-- `MAPEO_RESPUESTAS` of `config.py` (lines 71-77): the 5-point
response vocabulary used by `correlacion.py` and `clusters.py`. -/
def MAPEO_RESPUESTAS : List (String × ℚ) :=
  [("TOTALMENTE EN DESACUERDO", 1),
   ("EN DESACUERDO", 2),
   ("NI DE ACUERDO NI DESACUERDO", 3),
   ("DE ACUERDO", 4),
   ("TOTALMENTE DE ACUERDO", 5)]

/-- `GRUPOS_COLUMNAS` of `config.py` (lines 29-62): survey column names
with their spreadsheet column letters, grouped by section. -/
def GRUPOS_COLUMNAS : List (String × List (String × String)) :=
  [("LIDERAZGO DE LA GESTORA PRINCIPAL",
    [("LIDERAZGO_GESTORA", "L"),
     ("OPORTUNIDADES_CRECIMIENTO", "M"),
     ("DECISIONES_LIDER", "N"),
     ("ESPACIOS_RETROALIMENTACION", "O"),
     ("RETROALIMENTACION_ADECUADA", "P"),
     ("FELICITACION_DEL_LIDER", "Q"),
     ("ACTIVIDADES_QUE_CORRESPONDEN", "R"),
     ("LIDER_GENERA_CONFIANZA", "S"),
     ("ARTICULA_ACTIVIDADES", "T")]),
   ("CONDICIONES GENERALES DEL COMEDOR",
    [("LIBERTAD_DE_EXPRESARSE", "U"),
     ("OPINION_EN_CUENTA", "V"),
     ("RECONOCIDOS_POR_LOGROS", "W"),
     ("HABILIDADES_RECONOCIDAS", "X"),
     ("TRABAJO_EN_EQUIPO", "Y"),
     ("RELACIONES_RESPETUOSAS", "Z"),
     ("RED_INTERNA_FORTALECIDA", "AA"),
     ("OBJETIVOS_COMEDOR", "AB"),
     ("ACTIVIDADES_RECREATIVAS", "AC"),
     ("ACTIVIDADES_FORMATIVAS", "AD")]),
   ("CONDICIONES DE LA LABOR SOCIAL",
    [("CAPACITACIONES", "AE"),
     ("LABOR_SOCIAL", "AF"),
     ("ORGULLOSO_DE_LABOR_SOCIAL", "AG"),
     ("IMPACTO_LABOR_SOCIAL", "AH"),
     ("FORTALECIDO_LABOR_SOCIAL", "AI"),
     ("APORTA_OBJETIVOS_CC", "AJ"),
     ("APORTA_POSITIVAMENTE", "AK")])]

end Config

namespace Correlacion

/-- Cell-level semantics of `df_analisis[col].map(MAPEO_RESPUESTAS).fillna(0)`
(`correlacion.py` line 24 and `clusters.py` line 27), with the 5-point
vocabulary of `config.py`. -/
def encodeCelda : Celda → Celda
  | .texto s => .numero ((Config.MAPEO_RESPUESTAS.lookup s).getD 0)
  | _ => .numero 0

/-- Column assignment with the 5-point encoding (`correlacion.py` lines
23-24 / `clusters.py` lines 26-27). -/
def encodeColumn (df : DF) (p : String) : DF :=
  if p ∈ df.cols then
    let i := df.cols.indexOf p
    { df with rows := df.rows.map (fun r => r.set i (encodeCelda (r.getD i .nulo))) }
  else df

/-- One iteration of the `preparar_dataframe` loop (`correlacion.py`
lines 20-32 / `clusters.py` lines 24-33) for the pair
`(nombre_col, letra_col)`: encode the column when the name is present,
otherwise fall back to the spreadsheet-letter index, encode that column
and rename it to `nombre_col`. -/
def prepararPaso (df : DF) (par : String × String) : DF :=
  if par.1 ∈ df.cols then encodeColumn df par.1
  else
    let indice := Utils.obtener_letra_a_indice par.2
    if 0 ≤ indice ∧ indice < (df.cols.length : ℤ) then
      let colActual := df.cols.getD indice.toNat ""
      let d2 := encodeColumn df colActual
      { d2 with cols := d2.cols.map (fun c => if c = colActual then par.1 else c) }
    else df

/-- `preparar_dataframe` (`correlacion.py` lines 12-34, byte-identical
logic in `clusters.py` lines 19-34) as a pure value transformation: a
copy of the frame with every survey column of `GRUPOS_COLUMNAS`
numerically encoded. -/
def preparar_dataframe (df : DF) : DF :=
  Config.GRUPOS_COLUMNAS.foldl (fun acc g => g.2.foldl prepararPaso acc) df

/-- One row of the `todas_correlaciones` table built by
`mostrar_analisis_correlacion` (`correlacion.py` lines 143-149). -/
structure ParCorrelacion where
  var1 : String
  var2 : String
  coef : ℚ
  tipo : String
  fuerza : String
deriving DecidableEq, Repr

/-- `interpret_correlation_strength` (`correlacion.py` lines 175-187). -/
def interpret_correlation_strength (coef : ℚ) : String :=
  if |coef| ≥ 9/10 then "Muy alta"
  else if |coef| ≥ 7/10 then "Alta"
  else if |coef| ≥ 2/5 then "Moderada"
  else if |coef| ≥ 1/5 then "Baja"
  else "Muy baja"

/-- Underscore-to-space renaming `var.replace('_', ' ')`
(`correlacion.py` lines 140-141). -/
def nombreLegible (s : String) : String :=
  s.map (fun c => if c = '_' then ' ' else c)

/-- The pair-collection loop of `mostrar_analisis_correlacion`
(`correlacion.py` lines 133-149): every unordered pair `i < j` of
correlation-matrix columns, in input order, with coefficient
`m i j`, its sign label and its strength label. -/
def todas_correlaciones (cols : List String) (m : ℕ → ℕ → ℚ) : List ParCorrelacion :=
  (List.range cols.length).flatMap (fun i =>
    ((List.range cols.length).filter (fun j => i < j)).map (fun j =>
      { var1 := nombreLegible (cols.getD i "")
        var2 := nombreLegible (cols.getD j "")
        coef := m i j
        tipo := if m i j > 0 then "Positiva" else "Negativa"
        fuerza := interpret_correlation_strength (m i j) }))

/-- Comparison used to model
`df_todas.sort_values(by='Coeficiente', ascending=False)`
(`correlacion.py` line 154): larger coefficients first. -/
def coefDesc (p q : ParCorrelacion) : Prop := q.coef ≤ p.coef

instance : DecidableRel coefDesc := fun p q => inferInstanceAs (Decidable (q.coef ≤ p.coef))

instance : IsTotal ParCorrelacion coefDesc := ⟨fun p q => le_total q.coef p.coef⟩

instance : IsTrans ParCorrelacion coefDesc := ⟨fun _ _ _ h1 h2 => le_trans h2 h1⟩

/-- The correlation table as displayed (`correlacion.py` lines 152-154):
all pairs, sorted by coefficient in descending order. -/
def tabla_correlaciones (cols : List String) (m : ℕ → ℕ → ℚ) : List ParCorrelacion :=
  (todas_correlaciones cols m).insertionSort coefDesc

end Correlacion

namespace Clusters

/-- Column semantics of `X = df_analisis[todas_columnas].fillna(0)`
(`clusters.py` line 83): every missing cell becomes `0`. -/
def fillnaZero (col : List (Option ℚ)) : List (Option ℚ) :=
  col.map (fun c => some (c.getD 0))

end Clusters

namespace AnalisisDior

/-- Column semantics of
`X = df_prep[todas_preguntas].fillna(df_prep[todas_preguntas].mean())`
(`analisis_clusters`, `analisis_dior.py` line 300): every missing cell
becomes the column's mean over its non-missing values; a column with no
values keeps its missing cells (`fillna(NaN)` fills nothing). -/
def fillnaColMean (col : List (Option ℚ)) : List (Option ℚ) :=
  match seriesMean col with
  | none => col
  | some m => col.map (fun c => some (c.getD m))

/-- `columnas_requeridas` of `analisis_liderazgo_por_rol`
(`analisis_dior.py` lines 605-611). -/
def columnas_requeridas : List String :=
  ["ROL",
   "NOMBRE_COMEDOR",
   "2.1_LIDERAZGO_RESPESTUOSO",
   "2.2_OPORTUNIDAD_DE_PROPONER_IDEAS",
   "2.3_ESPACIOS_ADECUADOS_RETROALIMENTACION"]

/-- The per-question record built inside the per-comedor loop of
`analisis_liderazgo_por_rol` (`analisis_dior.py` lines 679-702). -/
structure AnalisisPregunta where
  valores_principal : List ℚ
  valores_auxiliar : List ℚ
  promedio_principal : ℚ
  promedio_auxiliar : ℚ
  diferencia : ℚ
  diferencia_abs : ℚ
  concordancia : String
deriving DecidableEq, Repr

/-- One iteration of that loop: means per role, signed difference
(principal − auxiliar) and the threshold classification of line 692. -/
def analisisPregunta (valsP valsA : List ℚ) : AnalisisPregunta :=
  let pp := listMean valsP
  let pa := listMean valsA
  let d := pp - pa
  { valores_principal := valsP
    valores_auxiliar := valsA
    promedio_principal := pp
    promedio_auxiliar := pa
    diferencia := d
    diferencia_abs := |d|
    concordancia := if |d| ≤ 1/2 then "Alta" else if |d| ≤ 1 then "Media" else "Baja" }

/-- The per-comedor record of `analisis_liderazgo_por_rol`
(`analisis_dior.py` lines 704-712). -/
structure AnalisisComedor where
  analisis_preguntas : List AnalisisPregunta
  diferencia_promedio : ℚ
  concordancia_global : String
deriving DecidableEq, Repr

/-- The per-comedor analysis (`analisis_dior.py` lines 676-712): `datos`
lists, for each leadership question in order, the principal-role values
and the auxiliary-role values observed at this comedor. -/
def analisisComedor (datos : List (List ℚ × List ℚ)) : AnalisisComedor :=
  let porPregunta := datos.map (fun qd => analisisPregunta qd.1 qd.2)
  let diferencias := porPregunta.map (fun ap => ap.diferencia_abs)
  { analisis_preguntas := porPregunta
    diferencia_promedio := listMean diferencias
    concordancia_global :=
      if diferencias.all (fun d => d ≤ 1/2) then "Alta"
      else if diferencias.all (fun d => d ≤ 1) then "Media"
      else "Baja" }

/-- Result of `analisis_liderazgo_por_rol`: either the structured error
dictionary of line 615 (its only key is the message) or the analysis
results. -/
inductive ResultadoLiderazgo where
  | error (msg : String)
  | ok (analisis_comedores : List (String × AnalisisComedor))
deriving DecidableEq, Repr

/-- `analisis_liderazgo_por_rol` (`analisis_dior.py` lines 592-729),
with the per-comedor data (for the comedores having both roles)
abstracted as `datosComedores`: the fail-fast column check of lines
613-615 followed by the per-comedor analysis. -/
def analisis_liderazgo_por_rol (cols : List String)
    (datosComedores : List (String × List (List ℚ × List ℚ))) : ResultadoLiderazgo :=
  if columnas_requeridas.all (fun c => decide (c ∈ cols)) then
    .ok (datosComedores.map (fun cd => (cd.1, analisisComedor cd.2)))
  else
    .error ("Faltan columnas requeridas: " ++
      String.intercalate ", " (columnas_requeridas.filter (fun c => decide (c ∉ cols))))

/-- Rank used to state the conjunction law for concordance levels:
`"Alta"` (2) is best, `"Media"` (1) next, `"Baja"` (0) worst. -/
def nivelConcordancia (s : String) : ℕ :=
  if s = "Alta" then 2 else if s = "Media" then 1 else 0

/-- The names bound at the top level of the module `analisis_dior.py`
(its imports and its function and constant definitions), against which
Python resolves the call `analisis_correlaciones(df_prep)` on line 458. -/
def moduleNames : List String :=
  ["pd", "np", "px", "go", "make_subplots", "KMeans", "StandardScaler", "PCA",
   "spearmanr", "st",
   "MAPEO_RESPUESTAS", "DIMENSIONES", "DEMOGRAFICAS",
   "preparar_datos", "calcular_promedios_por_dimension", "interpretar_promedio",
   "analisis_descriptivo", "analisis_por_dimensiones", "analisis_clusters",
   "analisis_comparativo", "ejecutar_analisis_completo", "generar_visualizaciones",
   "analisis_liderazgo_por_rol", "generar_visualizaciones_liderazgo_por_rol"]

/-- Return value of `ejecutar_analisis_completo`: the error dictionary
of line 440, or the full results dictionary of lines 446-466 (only the
field needed here is carried). -/
inductive ResultadoCompleto where
  | errorDict (msg : String)
  | resultados (datos_preparados : Option DF)
deriving DecidableEq, Repr

/-- A Python call outcome: a returned value or a propagated exception. -/
inductive PyOutcome (α : Type) where
  | ok (v : α)
  | raised (exc : String)
deriving DecidableEq, Repr

/-- `ejecutar_analisis_completo` (`analisis_dior.py` lines 427-466):
the empty-input guard of lines 439-440 returns the error dictionary;
otherwise the pipeline runs until line 458, where the unbound name
`analisis_correlaciones` is resolved against `moduleNames` and, being
absent, raises `NameError`, which propagates to the caller. -/
def ejecutar_analisis_completo (df_datos : Option DF) : PyOutcome ResultadoCompleto :=
  match df_datos with
  | none => .ok (.errorDict "No se pudieron cargar los datos")
  | some d =>
    if d.isVacio then .ok (.errorDict "No se pudieron cargar los datos")
    else if "analisis_correlaciones" ∈ moduleNames then
      .ok (.resultados (preparar_datos (some d)))
    else .raised "NameError: name 'analisis_correlaciones' is not defined"

/-- Value of the cell of row `r` at column `p` (0 when the cell is not
numeric); used to phrase the spec-side dimension score. -/
def cellValue (cols : List String) (r : List Celda) (p : String) : ℚ :=
  ((r.getD (cols.indexOf p) Celda.nulo).toNum).getD 0

/-- Dimension score as §4.2 of the spec words it: for each respondent
the mean of that respondent's values over only the question columns
present in the matrix, then the mean of those per-respondent means
across all respondents. -/
def spec_promedio_dimension (df : DF) (preguntas : List String) : ℚ :=
  let presentes := preguntas.filter (fun p => p ∈ df.cols)
  listMean (df.rows.map (fun r => listMean (presentes.map (cellValue df.cols r))))

/-- Column `j` of the frame holds an encoded value in `[0, 3]` in every
row (the range of the 3-point encoder, `0` being the zero-fill
default). -/
def columnaAcotada (d : DF) (j : ℕ) : Prop :=
  ∀ r ∈ d.rows, ∃ q, r.getD j Celda.nulo = Celda.numero q ∧ 0 ≤ q ∧ q ≤ 3

end AnalisisDior

/-! ## A store model for the copy semantics of the preparation functions

`preparar_datos` and `preparar_dataframe` mutate a data frame object in
place after `df.copy()`.  To talk about mutation at all, frames are kept
in a store of reference/value pairs; the preparation functions allocate
a fresh reference for the copy and every write goes to that reference. -/

/-- A store of data-frame objects addressed by references. -/
abbrev Almacen := List (ℕ × DF)

/-- Dereference: the frame currently held at `r`. -/
def almacenGet (h : Almacen) (r : ℕ) : Option DF :=
  (h.find? (fun p => p.1 == r)).map (fun p => p.2)

/-- In-place update of the object at `r`. -/
def almacenSet (h : Almacen) (r : ℕ) (d : DF) : Almacen :=
  h.map (fun p => if p.1 == r then (p.1, d) else p)

/-- A reference unused by the store (strictly above every allocated
reference). -/
def refFresca (h : Almacen) : ℕ :=
  (h.map (fun p => p.1)).foldr max 0 + 1

namespace AnalisisDior

/-- One in-place column encoding on the object at `r` (`analisis_dior.py`
line 90 executed on `df_prep`). -/
def encodeStepStore (r : ℕ) (h : Almacen) (p : String) : Almacen :=
  match almacenGet h r with
  | none => h
  | some d => almacenSet h r (encodeColumn d p)

/-- `preparar_datos` with its store effects (`analisis_dior.py` lines
70-92): a fresh copy of the frame at `r` is allocated (line 84) and all
encoding writes of lines 87-90 go to the copy; the result is the updated
store and the reference returned (`None` for null/empty input). -/
def preparar_datos_store (h : Almacen) (r : ℕ) : Almacen × Option ℕ :=
  match almacenGet h r with
  | none => (h, none)
  | some df =>
    if df.isVacio then (h, none)
    else
      let rNueva := refFresca h
      let h1 := (rNueva, df) :: h
      let h2 := DIMENSIONES.foldl (fun acc dim => dim.2.foldl (encodeStepStore rNueva) acc) h1
      (h2, some rNueva)

end AnalisisDior

namespace Correlacion

/-- One in-place loop iteration of `preparar_dataframe` on the object at
`r` (`correlacion.py` lines 20-32 executed on `df_analisis`). -/
def prepararPasoStore (r : ℕ) (h : Almacen) (par : String × String) : Almacen :=
  match almacenGet h r with
  | none => h
  | some d => almacenSet h r (prepararPaso d par)

/-- `preparar_dataframe` with its store effects (`correlacion.py` lines
12-34 and `clusters.py` lines 19-34): a fresh copy of the frame at `r`
is allocated (line 17) and every encode/rename write goes to the copy. -/
def preparar_dataframe_store (h : Almacen) (r : ℕ) : Almacen × Option ℕ :=
  match almacenGet h r with
  | none => (h, none)
  | some df =>
    let rNueva := refFresca h
    let h1 := (rNueva, df) :: h
    let h2 := Config.GRUPOS_COLUMNAS.foldl
      (fun acc g => g.2.foldl (prepararPasoStore rNueva) acc) h1
    (h2, some rNueva)

end Correlacion

/-! ## Generic helper lemmas -/

theorem lookup_eq_some_of_mem_nodup {β : Type} {l : List (String × β)}
    (hnd : (l.map Prod.fst).Nodup) {a : String} {b : β} (hmem : (a, b) ∈ l) :
    l.lookup a = some b := by
  induction l with
  | nil => simp at hmem
  | cons hd tl ih =>
    obtain ⟨k, v⟩ := hd
    simp only [List.map_cons, List.nodup_cons] at hnd
    rcases List.mem_cons.mp hmem with heq | hmem2
    · obtain ⟨rfl, rfl⟩ := Prod.mk.injEq k v a b ▸ heq.symm
      simp [List.lookup]
    · have hne : (a == k) = false := by
        refine beq_eq_false_iff_ne.mpr (fun hak => hnd.1 ?_)
        exact hak ▸ List.mem_map.mpr ⟨(a, b), hmem2, rfl⟩
      simpa [List.lookup, hne] using ih hnd.2 hmem2

theorem lookup_eq_none_of_not_mem {β : Type} {l : List (String × β)}
    {a : String} (h : ∀ b, (a, b) ∉ l) : l.lookup a = none := by
  induction l with
  | nil => rfl
  | cons hd tl ih =>
    obtain ⟨k, v⟩ := hd
    have hne : (a == k) = false := by
      refine beq_eq_false_iff_ne.mpr (fun hak => h v ?_)
      exact hak ▸ List.mem_cons_self _ _
    simpa [List.lookup, hne] using ih (fun b hb => h b (List.mem_cons_of_mem _ hb))

theorem mem_of_lookup_eq_some {β : Type} {l : List (String × β)}
    {a : String} {b : β} (h : l.lookup a = some b) : (a, b) ∈ l := by
  induction l with
  | nil => simp [List.lookup] at h
  | cons hd tl ih =>
    obtain ⟨k, v⟩ := hd
    by_cases hak : a = k
    · subst hak
      simp only [List.lookup, beq_self_eq_true] at h
      exact List.mem_cons.mpr (Or.inl (by simpa using h.symm))
    · have hne : (a == k) = false := beq_eq_false_iff_ne.mpr hak
      simp only [List.lookup, hne] at h
      exact List.mem_cons_of_mem _ (ih h)

theorem indexOf_lt_length_of_mem {α : Type} [BEq α] [LawfulBEq α]
    {a : α} {l : List α} (h : a ∈ l) : l.indexOf a < l.length :=
  List.findIdx_lt_length.mpr ⟨a, h, by simp⟩

theorem sum_bounds_of_forall {l : List ℚ} {a b : ℚ}
    (hb : ∀ x ∈ l, a ≤ x ∧ x ≤ b) :
    (l.length : ℚ) * a ≤ l.sum ∧ l.sum ≤ (l.length : ℚ) * b := by
  induction l with
  | nil => simp
  | cons x xs ih =>
    have hx := hb x (List.mem_cons_self _ _)
    have ihs := ih (fun y hy => hb y (List.mem_cons_of_mem _ hy))
    simp only [List.sum_cons, List.length_cons]
    push_cast
    constructor <;> nlinarith [hx.1, hx.2, ihs.1, ihs.2]

theorem listMean_bounds {l : List ℚ} {a b : ℚ} (hne : l ≠ [])
    (hb : ∀ x ∈ l, a ≤ x ∧ x ≤ b) : a ≤ listMean l ∧ listMean l ≤ b := by
  have hlen : 0 < (l.length : ℚ) := by
    exact_mod_cast List.length_pos.mpr hne
  obtain ⟨h1, h2⟩ := sum_bounds_of_forall hb
  unfold listMean
  constructor
  · rw [le_div_iff₀ hlen]
    linarith
  · rw [div_le_iff₀ hlen]
    linarith

/-! ## C1: the Response Encoder -/

/-- C1: the Response Encoder (cellwise semantics of `preparar_datos`,
`analisis_dior.py` line 90, and of `preparar_dataframe`,
`correlacion.py` line 24) maps every value that is a key of its fixed
vocabulary to its mapped integer and every other value (null, non-text,
or unrecognized text) to 0, totally (no exception). -/
theorem c1_encoder_vocabulario_y_defecto (s : String) (k : ℚ) (c : Celda) :
    ((s, k) ∈ AnalisisDior.MAPEO_RESPUESTAS →
      AnalisisDior.encodeCelda (.texto s) = .numero k) ∧
    ((s, k) ∈ Config.MAPEO_RESPUESTAS →
      Correlacion.encodeCelda (.texto s) = .numero k) ∧
    ((∀ t, c = .texto t → ∀ v, (t, v) ∉ AnalisisDior.MAPEO_RESPUESTAS) →
      AnalisisDior.encodeCelda c = .numero 0) ∧
    ((∀ t, c = .texto t → ∀ v, (t, v) ∉ Config.MAPEO_RESPUESTAS) →
      Correlacion.encodeCelda c = .numero 0) := by
  refine ⟨?_, ?_, ?_, ?_⟩
  · intro h
    have hl := lookup_eq_some_of_mem_nodup (l := AnalisisDior.MAPEO_RESPUESTAS) (by decide) h
    simp [AnalisisDior.encodeCelda, hl]
  · intro h
    have hl := lookup_eq_some_of_mem_nodup (l := Config.MAPEO_RESPUESTAS) (by decide) h
    simp [Correlacion.encodeCelda, hl]
  · intro h
    cases c with
    | texto t =>
      have hl := lookup_eq_none_of_not_mem (h t rfl)
      simp [AnalisisDior.encodeCelda, hl]
    | numero q => rfl
    | nulo => rfl
  · intro h
    cases c with
    | texto t =>
      have hl := lookup_eq_none_of_not_mem (h t rfl)
      simp [Correlacion.encodeCelda, hl]
    | numero q => rfl
    | nulo => rfl

/-- Witness for C1 at concrete cells: an in-vocabulary answer for each
encoder, an unrecognized text, and a null cell. -/
theorem c1_encoder_witness :
    AnalisisDior.encodeCelda (.texto "DE ACUERDO") = .numero 3 ∧
    Correlacion.encodeCelda (.texto "DE ACUERDO") = .numero 4 ∧
    AnalisisDior.encodeCelda (.texto "QUIZAS") = .numero 0 ∧
    Correlacion.encodeCelda .nulo = .numero 0 := by
  refine ⟨?_, ?_, ?_, ?_⟩
  · exact (c1_encoder_vocabulario_y_defecto "DE ACUERDO" 3 .nulo).1 (by decide)
  · exact (c1_encoder_vocabulario_y_defecto "DE ACUERDO" 4 .nulo).2.1 (by decide)
  · exact (c1_encoder_vocabulario_y_defecto "" 0 (.texto "QUIZAS")).2.2.1
      (by intro t ht v hv; cases ht; simp [AnalisisDior.MAPEO_RESPUESTAS] at hv)
  · exact (c1_encoder_vocabulario_y_defecto "" 0 .nulo).2.2.2
      (by intro t ht; cases ht)

/-! ## C3: the classification bands -/

/-- C3: both `interpretar_promedio` variants are total and exhaustive
band classifiers — each band holds exactly on its half-open interval, so
every score belongs to exactly one band — and every exact band boundary
resolves to the higher band (in particular 1.5 is "Neutral", not
"Desfavorable", in the 3-band variant of `analisis_dior.py`). -/
theorem c3_interpretar_promedio_bandas (v : ℚ) :
    (AnalisisDior.interpretar_promedio v = "Desfavorable" ↔ v < 3/2) ∧
    (AnalisisDior.interpretar_promedio v = "Neutral" ↔ 3/2 ≤ v ∧ v < 5/2) ∧
    (AnalisisDior.interpretar_promedio v = "Favorable" ↔ 5/2 ≤ v) ∧
    (Utils.interpretar_promedio v = "Muy Desfavorable" ↔ v < 3/2) ∧
    (Utils.interpretar_promedio v = "Desfavorable" ↔ 3/2 ≤ v ∧ v < 5/2) ∧
    (Utils.interpretar_promedio v = "Neutral" ↔ 5/2 ≤ v ∧ v < 7/2) ∧
    (Utils.interpretar_promedio v = "Favorable" ↔ 7/2 ≤ v ∧ v < 9/2) ∧
    (Utils.interpretar_promedio v = "Muy Favorable" ↔ 9/2 ≤ v) ∧
    AnalisisDior.interpretar_promedio (3/2) = "Neutral" ∧
    AnalisisDior.interpretar_promedio (5/2) = "Favorable" ∧
    Utils.interpretar_promedio (3/2) = "Desfavorable" ∧
    Utils.interpretar_promedio (5/2) = "Neutral" ∧
    Utils.interpretar_promedio (7/2) = "Favorable" ∧
    Utils.interpretar_promedio (9/2) = "Muy Favorable" := by
  refine ⟨?_, ?_, ?_, ?_, ?_, ?_, ?_, ?_, ?_, ?_, ?_, ?_, ?_, ?_⟩ <;>
    simp only [AnalisisDior.interpretar_promedio, Utils.interpretar_promedio] <;>
    split_ifs <;>
    (try simp_all) <;>
    first
      | rfl
      | linarith
      | (constructor <;> linarith)
      | (rintro ⟨ha, hb⟩; linarith)
      | (intro ha; linarith)

/-! ## C2: the top-level pipeline and the unbound name -/

/-- C2: `ejecutar_analisis_completo` returns the structured error object
for a null or empty dataset, and for every non-empty dataset it raises
`NameError` (the name `analisis_correlaciones` called on line 458 is
bound nowhere in the module), so it never returns a results
dictionary. -/
theorem c2_pipeline_nameerror :
    ("analisis_correlaciones" ∉ AnalisisDior.moduleNames) ∧
    (∀ d : Option DF,
      (d = none ∨ ∃ x, d = some x ∧ x.isVacio = true) →
      AnalisisDior.ejecutar_analisis_completo d =
        .ok (.errorDict "No se pudieron cargar los datos")) ∧
    (∀ x : DF, x.isVacio = false →
      AnalisisDior.ejecutar_analisis_completo (some x) =
        .raised "NameError: name 'analisis_correlaciones' is not defined") := by
  refine ⟨by decide, ?_, ?_⟩
  · rintro d (rfl | ⟨x, rfl, hx⟩)
    · rfl
    · simp [AnalisisDior.ejecutar_analisis_completo, hx]
  · intro x hx
    simp [AnalisisDior.ejecutar_analisis_completo, hx, AnalisisDior.moduleNames]

/-- Witness for C2: an empty frame yields the error object, a one-cell
frame yields the propagated `NameError`. -/
theorem c2_pipeline_witness :
    AnalisisDior.ejecutar_analisis_completo (some ⟨[], []⟩) =
      .ok (.errorDict "No se pudieron cargar los datos") ∧
    AnalisisDior.ejecutar_analisis_completo (some ⟨["NOMBRE_COMEDOR"], [[.nulo]]⟩) =
      .raised "NameError: name 'analisis_correlaciones' is not defined" :=
  ⟨c2_pipeline_nameerror.2.1 (some ⟨[], []⟩) (Or.inr ⟨⟨[], []⟩, rfl, rfl⟩),
   c2_pipeline_nameerror.2.2 ⟨["NOMBRE_COMEDOR"], [[.nulo]]⟩ rfl⟩

/-! ## C6: the fail-fast column check of the Role Comparator -/

/-- C6: whenever one of the fixed required columns is absent,
`analisis_liderazgo_por_rol` returns exactly the structured error result
naming the missing columns (the `error` constructor carries nothing
else), instead of partial output or an exception. -/
theorem c6_columnas_faltantes (cols : List String)
    (datos : List (String × List (List ℚ × List ℚ))) (c : String)
    (hc : c ∈ AnalisisDior.columnas_requeridas) (hnc : c ∉ cols) :
    AnalisisDior.analisis_liderazgo_por_rol cols datos =
      .error ("Faltan columnas requeridas: " ++ String.intercalate ", "
        (AnalisisDior.columnas_requeridas.filter (fun x => decide (x ∉ cols)))) := by
  unfold AnalisisDior.analisis_liderazgo_por_rol
  rw [if_neg]
  intro hall
  rw [List.all_eq_true] at hall
  exact hnc (of_decide_eq_true (hall c hc))

/-- Witness for C6: with `ROL` absent the result is exactly the error
dictionary naming `ROL`. -/
theorem c6_columnas_faltantes_witness :
    AnalisisDior.analisis_liderazgo_por_rol
      ["NOMBRE_COMEDOR", "2.1_LIDERAZGO_RESPESTUOSO",
       "2.2_OPORTUNIDAD_DE_PROPONER_IDEAS",
       "2.3_ESPACIOS_ADECUADOS_RETROALIMENTACION"] [] =
      .error "Faltan columnas requeridas: ROL" := by
  have h := c6_columnas_faltantes
    ["NOMBRE_COMEDOR", "2.1_LIDERAZGO_RESPESTUOSO",
     "2.2_OPORTUNIDAD_DE_PROPONER_IDEAS",
     "2.3_ESPACIOS_ADECUADOS_RETROALIMENTACION"] [] "ROL" (by decide) (by decide)
  exact h.trans (by rfl)

/-! ## C7: the concordance conjunction law -/

theorem foldr_min_le_two (l : List ℕ) : l.foldr min 2 ≤ 2 := by
  induction l with
  | nil => exact le_refl 2
  | cons x xs ih =>
    simp only [List.foldr_cons]
    exact le_trans (min_le_right x _) ih

theorem all_le_half_iff_foldr_eq_two (l : List ℚ) :
    (l.all (fun d => decide (d ≤ 1/2)) = true) ↔
    ((l.map (fun d => if d ≤ 1/2 then 2 else if d ≤ 1 then 1 else 0)).foldr min 2 = 2) := by
  induction l with
  | nil => simp
  | cons d xs ih =>
    simp only [List.all_cons, List.map_cons, List.foldr_cons, Bool.and_eq_true,
      decide_eq_true_eq]
    have hle := foldr_min_le_two
      (xs.map (fun d => if d ≤ 1/2 then 2 else if d ≤ 1 then 1 else 0))
    constructor
    · rintro ⟨hd, hxs⟩
      rw [if_pos hd]
      have h2 := ih.mp hxs
      omega
    · intro h
      split_ifs at h with h1 h2
      · exact ⟨h1, ih.mpr (by omega)⟩
      all_goals omega

theorem all_le_one_iff_foldr_ge_one (l : List ℚ) :
    (l.all (fun d => decide (d ≤ 1)) = true) ↔
    (1 ≤ (l.map (fun d => if d ≤ 1/2 then 2 else if d ≤ 1 then 1 else 0)).foldr min 2) := by
  induction l with
  | nil => simp
  | cons d xs ih =>
    simp only [List.all_cons, List.map_cons, List.foldr_cons, Bool.and_eq_true,
      decide_eq_true_eq]
    constructor
    · rintro ⟨hd, hxs⟩
      refine le_min ?_ (ih.mp hxs)
      split_ifs with h1 h2 <;> first | omega | exact absurd hd h2
    · intro h
      obtain ⟨ha, hb⟩ := le_min_iff.mp h
      refine ⟨?_, ih.mpr hb⟩
      by_contra hd
      have hdh : ¬ d ≤ 1/2 := fun hh => hd (by linarith)
      rw [if_neg hdh, if_neg hd] at ha
      omega

theorem nivel_global_eq_foldr_min (l : List ℚ) :
    AnalisisDior.nivelConcordancia
      (if l.all (fun d => decide (d ≤ 1/2)) then "Alta"
       else if l.all (fun d => decide (d ≤ 1)) then "Media" else "Baja") =
    (l.map (fun d => if d ≤ 1/2 then 2 else if d ≤ 1 then 1 else 0)).foldr min 2 := by
  have hle := foldr_min_le_two (l.map (fun d => if d ≤ 1/2 then 2 else if d ≤ 1 then 1 else 0))
  by_cases hA : l.all (fun d => decide (d ≤ 1/2)) = true
  · rw [if_pos hA, show AnalisisDior.nivelConcordancia "Alta" = 2 from rfl]
    exact ((all_le_half_iff_foldr_eq_two l).mp hA).symm
  · rw [if_neg hA]
    have h2 : ¬ (l.map (fun d => if d ≤ 1/2 then 2 else if d ≤ 1 then 1 else 0)).foldr min 2 = 2 :=
      fun hh => hA ((all_le_half_iff_foldr_eq_two l).mpr hh)
    by_cases hB : l.all (fun d => decide (d ≤ 1)) = true
    · rw [if_pos hB, show AnalisisDior.nivelConcordancia "Media" = 1 from rfl]
      have h1 := (all_le_one_iff_foldr_ge_one l).mp hB
      omega
    · rw [if_neg hB, show AnalisisDior.nivelConcordancia "Baja" = 0 from rfl]
      have h1 : ¬ 1 ≤ (l.map (fun d => if d ≤ 1/2 then 2 else if d ≤ 1 then 1 else 0)).foldr min 2 :=
        fun hh => hB ((all_le_one_iff_foldr_ge_one l).mpr hh)
      omega

theorem nivel_concordancia_pregunta (valsP valsA : List ℚ) :
    AnalisisDior.nivelConcordancia (AnalisisDior.analisisPregunta valsP valsA).concordancia =
    (if (AnalisisDior.analisisPregunta valsP valsA).diferencia_abs ≤ 1/2 then 2
     else if (AnalisisDior.analisisPregunta valsP valsA).diferencia_abs ≤ 1 then 1 else 0) := by
  have hd : (AnalisisDior.analisisPregunta valsP valsA).diferencia_abs
      = |listMean valsP - listMean valsA| := rfl
  have hc : (AnalisisDior.analisisPregunta valsP valsA).concordancia
      = if |listMean valsP - listMean valsA| ≤ 1/2 then "Alta"
        else if |listMean valsP - listMean valsA| ≤ 1 then "Media" else "Baja" := rfl
  rw [hd, hc]
  by_cases h1 : |listMean valsP - listMean valsA| ≤ 1/2
  · rw [if_pos h1, if_pos h1, show AnalisisDior.nivelConcordancia "Alta" = 2 from rfl]
  · rw [if_neg h1, if_neg h1]
    by_cases h2 : |listMean valsP - listMean valsA| ≤ 1
    · rw [if_pos h2, if_pos h2, show AnalisisDior.nivelConcordancia "Media" = 1 from rfl]
    · rw [if_neg h2, if_neg h2, show AnalisisDior.nivelConcordancia "Baja" = 0 from rfl]

/-- C7: the Role Comparator classifies each question's agreement by the
absolute difference of role averages ("Alta" iff ≤ 1/2, "Media" iff in
(1/2, 1], "Baja" iff > 1), and the per-comedor overall agreement equals
the worst (minimum) of the per-question classifications, under the
ranking Alta = 2 > Media = 1 > Baja = 0. -/
theorem c7_concordancia_global_minimo (datos : List (List ℚ × List ℚ)) :
    (∀ ap ∈ (AnalisisDior.analisisComedor datos).analisis_preguntas,
      (ap.concordancia = "Alta" ↔ ap.diferencia_abs ≤ 1/2) ∧
      (ap.concordancia = "Media" ↔ 1/2 < ap.diferencia_abs ∧ ap.diferencia_abs ≤ 1) ∧
      (ap.concordancia = "Baja" ↔ 1 < ap.diferencia_abs) ∧
      ap.diferencia_abs = |ap.promedio_principal - ap.promedio_auxiliar|) ∧
    AnalisisDior.nivelConcordancia
        (AnalisisDior.analisisComedor datos).concordancia_global =
      ((AnalisisDior.analisisComedor datos).analisis_preguntas.map
        (fun ap => AnalisisDior.nivelConcordancia ap.concordancia)).foldr min 2 := by
  constructor
  · intro ap hap
    simp only [AnalisisDior.analisisComedor, List.mem_map] at hap
    obtain ⟨qd, hqd, rfl⟩ := hap
    unfold AnalisisDior.analisisPregunta
    refine ⟨?_, ?_, ?_, by simp⟩ <;>
      (simp only []; split_ifs <;> simp_all <;>
        first
          | linarith
          | (constructor <;> linarith)
          | (rintro ⟨ha, hb⟩; linarith)
          | (intro ha; linarith))
  · have hpre : (AnalisisDior.analisisComedor datos).analisis_preguntas
        = datos.map (fun qd => AnalisisDior.analisisPregunta qd.1 qd.2) := rfl
    have hglob : (AnalisisDior.analisisComedor datos).concordancia_global
        = (if ((datos.map (fun qd => AnalisisDior.analisisPregunta qd.1 qd.2)).map
                (fun ap => ap.diferencia_abs)).all (fun d => decide (d ≤ 1/2)) then "Alta"
           else if ((datos.map (fun qd => AnalisisDior.analisisPregunta qd.1 qd.2)).map
                (fun ap => ap.diferencia_abs)).all (fun d => decide (d ≤ 1)) then "Media"
           else "Baja") := rfl
    rw [hpre, hglob, nivel_global_eq_foldr_min]
    congr 1
    rw [List.map_map, List.map_map, List.map_map]
    refine List.map_congr_left (fun qd _ => ?_)
    simp only [Function.comp_apply]
    exact (nivel_concordancia_pregunta qd.1 qd.2).symm

/-- Witness for C7 at a concrete comedor: question 1 has role averages
3 and 2 (difference 1, "Media"), question 2 has role averages 1 and 3
(absolute difference 2, "Baja"). -/
theorem c7_concordancia_witness :
    ((AnalisisDior.analisisPregunta [3] [2]).concordancia = "Media" ↔
      1/2 < (AnalisisDior.analisisPregunta [3] [2]).diferencia_abs ∧
        (AnalisisDior.analisisPregunta [3] [2]).diferencia_abs ≤ 1) ∧
    AnalisisDior.nivelConcordancia
        (AnalisisDior.analisisComedor [([3], [2]), ([1], [3])]).concordancia_global =
      ((AnalisisDior.analisisComedor [([3], [2]), ([1], [3])]).analisis_preguntas.map
        (fun ap => AnalisisDior.nivelConcordancia ap.concordancia)).foldr min 2 := by
  refine ⟨((c7_concordancia_global_minimo [([3], [2]), ([1], [3])]).1
      (AnalisisDior.analisisPregunta [3] [2]) ?_).2.1,
    (c7_concordancia_global_minimo [([3], [2]), ([1], [3])]).2⟩
  show AnalisisDior.analisisPregunta [3] [2] ∈
    [AnalisisDior.analisisPregunta [3] [2], AnalisisDior.analisisPregunta [1] [3]]
  exact List.mem_cons_self _ _

/-! ## C9: the missing-data policies -/

/-- C9 counterexample: on the clustering path of `clusters.py` (line
83) a missing cell is filled with 0, not with the column's mean — for
the column `[some 3, none]`, whose mean over present values is 3, the
two fills disagree. -/
theorem c9_counterexample_relleno_cero :
    Clusters.fillnaZero [some 3, none] = [some 3, some 0] ∧
    AnalisisDior.fillnaColMean [some 3, none] = [some 3, some 3] ∧
    Clusters.fillnaZero [some 3, none] ≠ AnalisisDior.fillnaColMean [some 3, none] := by
  have h1 : Clusters.fillnaZero [some 3, none] = [some 3, some 0] := by
    norm_num [Clusters.fillnaZero]
  have hfm : List.filterMap id [some (3 : ℚ), none] = [3] := rfl
  have hs : seriesMean [some (3 : ℚ), none] = some 3 := by
    show (if (List.filterMap id [some (3 : ℚ), none]).isEmpty then none
      else some (listMean (List.filterMap id [some (3 : ℚ), none]))) = some 3
    rw [hfm]
    norm_num [listMean]
  have h2 : AnalisisDior.fillnaColMean [some 3, none] = [some 3, some 3] := by
    unfold AnalisisDior.fillnaColMean
    rw [hs]
    show List.map (fun c => some (c.getD 3)) [some (3 : ℚ), none] = [some 3, some 3]
    simp
  refine ⟨h1, h2, ?_⟩
  rw [h1, h2]
  simp

/-- C9 (as amended): `analisis_clusters` (`analisis_dior.py` line 300)
fills a missing cell with its column's mean over the present values
(present cells are untouched), the clustering path of `clusters.py`
(line 83) fills a missing cell with 0, and the Dimension Aggregator
applies no imputation at all: a missing cell contributes nothing to its
row's mean. -/
theorem c9_amended_politicas_de_relleno (col : List (Option ℚ)) (i : ℕ) (q : ℚ)
    (r : List Celda) :
    (col[i]? = some (some q) → (AnalisisDior.fillnaColMean col)[i]? = some (some q)) ∧
    (col[i]? = some none → col.filterMap id ≠ [] →
      (AnalisisDior.fillnaColMean col)[i]? = some (some (listMean (col.filterMap id)))) ∧
    (col[i]? = some (some q) → (Clusters.fillnaZero col)[i]? = some (some q)) ∧
    (col[i]? = some none → (Clusters.fillnaZero col)[i]? = some (some 0)) ∧
    (AnalisisDior.rowMeanCells (r ++ [Celda.nulo]) = AnalisisDior.rowMeanCells r) ∧
    (seriesMean (col ++ [none]) = seriesMean col) := by
  have happend : ∀ s : List (Option ℚ), seriesMean (s ++ [none]) = seriesMean s := by
    intro s
    simp [seriesMean, List.filterMap_append]
  refine ⟨?_, ?_, ?_, ?_, ?_, happend col⟩
  · intro h
    unfold AnalisisDior.fillnaColMean
    cases hs : seriesMean col with
    | none => exact h
    | some m => simp [List.getElem?_map, h]
  · intro h hne
    have hs : seriesMean col = some (listMean (col.filterMap id)) := by
      have : (col.filterMap id).isEmpty = false := by
        simpa [List.isEmpty_iff] using hne
      simp [seriesMean, this]
    unfold AnalisisDior.fillnaColMean
    rw [hs]
    simp [List.getElem?_map, h]
  · intro h
    unfold Clusters.fillnaZero
    simp [List.getElem?_map, h]
  · intro h
    unfold Clusters.fillnaZero
    simp [List.getElem?_map, h]
  · unfold AnalisisDior.rowMeanCells
    rw [List.map_append]
    exact happend _

/-- Witness for C9 at the concrete column `[some 2, none]` and a
concrete aggregator row. -/
theorem c9_amended_witness :
    (AnalisisDior.fillnaColMean [some 2, none])[1]? =
      some (some (listMean (List.filterMap id [some (2 : ℚ), none]))) ∧
    (Clusters.fillnaZero [some 2, none])[1]? = some (some 0) ∧
    (AnalisisDior.fillnaColMean [some 2, none])[0]? = some (some 2) ∧
    AnalisisDior.rowMeanCells ([Celda.numero 2] ++ [Celda.nulo]) =
      AnalisisDior.rowMeanCells [Celda.numero 2] :=
  ⟨(c9_amended_politicas_de_relleno [some 2, none] 1 2 [.numero 2]).2.1 rfl (by simp),
   (c9_amended_politicas_de_relleno [some 2, none] 1 2 [.numero 2]).2.2.2.1 rfl,
   (c9_amended_politicas_de_relleno [some 2, none] 0 2 [.numero 2]).1 rfl,
   (c9_amended_politicas_de_relleno [some 2, none] 1 2 [.numero 2]).2.2.2.2.1⟩

/-! ## C8: the correlation table -/

/-- C8 counterexample: the correlation display of
`mostrar_analisis_correlacion` performs no top-10 extraction — with 6
columns it lists all 15 pairs (here all positive) — and its negative
coefficients appear in descending order (−1 before −5 before −9), not
ascending. -/
theorem c8_counterexample_sin_top10 :
    (Correlacion.tabla_correlaciones ["V1", "V2", "V3", "V4", "V5", "V6"]
      (fun _ _ => 1)).length = 15 ∧
    ((Correlacion.tabla_correlaciones ["V1", "V2", "V3", "V4", "V5", "V6"]
      (fun _ _ => 1)).map (fun p => p.tipo)) = List.replicate 15 "Positiva" ∧
    ¬ (15 : ℕ) ≤ 10 ∧
    ((Correlacion.tabla_correlaciones ["A", "B", "C"]
        (fun i j => if i == 0 && j == 1 then -1 else if i == 0 && j == 2 then -9 else -5)).map
      (fun p => p.coef)) = [-1, -5, -9] ∧
    ([(-1 : ℚ), -5, -9] ≠ [-9, -5, -1]) := by
  refine ⟨by decide, by decide, by decide, by decide, by decide⟩

/-- C8 (as amended): the correlation display collects every unordered
pair of question columns with its coefficient, labels it "Positiva"
exactly when the coefficient is strictly positive (else "Negativa"),
and presents all of them in a single table sorted by coefficient in
descending order — no top-10 truncation and no separate
ascending-ordered negative list. -/
theorem c8_amended_tabla_completa (cols : List String) (m : ℕ → ℕ → ℚ) :
    (Correlacion.tabla_correlaciones cols m).Perm (Correlacion.todas_correlaciones cols m) ∧
    List.Sorted Correlacion.coefDesc (Correlacion.tabla_correlaciones cols m) ∧
    ∀ p ∈ Correlacion.todas_correlaciones cols m,
      p.tipo = (if p.coef > 0 then "Positiva" else "Negativa") ∧
      p.fuerza = Correlacion.interpret_correlation_strength p.coef := by
  refine ⟨List.perm_insertionSort _ _, List.sorted_insertionSort _ _, ?_⟩
  intro p hp
  simp only [Correlacion.todas_correlaciones, List.mem_flatMap, List.mem_map] at hp
  obtain ⟨i, hi, j, hj, rfl⟩ := hp
  exact ⟨rfl, rfl⟩

/-- Witness for C8 (amended) on a concrete 2-column table with a
negative coefficient. -/
theorem c8_amended_witness :
    List.Sorted Correlacion.coefDesc
      (Correlacion.tabla_correlaciones ["A", "B"] (fun _ _ => -1)) ∧
    ((Correlacion.todas_correlaciones ["A", "B"] (fun _ _ => -1)).get
        ⟨0, by decide⟩).tipo = "Negativa" := by
  have h := (c8_amended_tabla_completa ["A", "B"] (fun _ _ => -1)).2.2
    ((Correlacion.todas_correlaciones ["A", "B"] (fun _ _ => -1)).get ⟨0, by decide⟩)
    (List.get_mem _ _ _)
  exact ⟨(c8_amended_tabla_completa ["A", "B"] (fun _ _ => -1)).2.1, h.1.trans (by decide)⟩

/-! ## C4: the Dimension Aggregator -/

theorem seriesMean_map_some {α : Type} (l : List α) (g : α → ℚ) (hne : l ≠ []) :
    seriesMean (l.map (fun x => some (g x))) = some (listMean (l.map g)) := by
  have h1 : List.filterMap id (l.map (fun x => some (g x))) = l.map g := by
    rw [List.filterMap_map]
    exact congrFun (List.filterMap_eq_map g) l
  show (if (List.filterMap id (l.map (fun x => some (g x)))).isEmpty then none
    else some (listMean (List.filterMap id (l.map (fun x => some (g x)))))) = _
  rw [h1, if_neg]
  simp [List.isEmpty_iff, hne]

theorem rowMean_all_numeric (cols existentes : List String) (r : List Celda)
    (hsub : ∀ p ∈ existentes, p ∈ cols)
    (hlen : r.length = cols.length)
    (hnum : ∀ c ∈ r, ∃ q, c = .numero q)
    (hne : existentes ≠ []) :
    AnalisisDior.rowMeanCells (AnalisisDior.selectCells cols existentes r) =
      some (listMean (existentes.map (AnalisisDior.cellValue cols r))) := by
  unfold AnalisisDior.rowMeanCells AnalisisDior.selectCells
  rw [List.map_map]
  have hpt : ∀ p ∈ existentes,
      (Celda.toNum ∘ fun p => r.getD (cols.indexOf p) Celda.nulo) p
        = some (AnalisisDior.cellValue cols r p) := by
    intro p hp
    have hidx : cols.indexOf p < cols.length := indexOf_lt_length_of_mem (hsub p hp)
    have hidx2 : cols.indexOf p < r.length := by rw [hlen]; exact hidx
    obtain ⟨q, hq⟩ := hnum _ (List.get_mem r _ hidx2)
    have hcell : r[cols.indexOf p]?.getD Celda.nulo = Celda.numero q := by
      rw [List.getElem?_eq_getElem hidx2]
      simpa [List.get_eq_getElem] using hq
    simp [Function.comp, AnalisisDior.cellValue, Celda.toNum, hcell]
  rw [List.map_congr_left hpt]
  exact seriesMean_map_some existentes (AnalisisDior.cellValue cols r) hne

/-- The seven dimension names of `DIMENSIONES` are pairwise distinct, so
the name determines the dimension. -/
theorem dimensiones_claves_unicas :
    ∀ d1 ∈ AnalisisDior.DIMENSIONES, ∀ d2 ∈ AnalisisDior.DIMENSIONES,
      d1.1 = d2.1 → d1 = d2 := by decide

/-- C4: on a fully numeric well-formed matrix with at least one row,
`calcular_promedios_por_dimension` omits every dimension with no present
question column, and for every dimension with at least one present
column it produces exactly the score worded by the spec: the mean across
respondents of the per-respondent mean over only the present question
columns. -/
theorem c4_promedios_por_dimension (df : DF)
    (hwf : ∀ r ∈ df.rows, r.length = df.cols.length)
    (hnum : ∀ r ∈ df.rows, ∀ c ∈ r, ∃ q, c = .numero q)
    (hrows : df.rows ≠ []) :
    ∀ dim ∈ AnalisisDior.DIMENSIONES,
      ((dim.2.filter (fun p => p ∈ df.cols)).isEmpty = true →
        ∀ v, (dim.1, v) ∉ AnalisisDior.calcular_promedios_por_dimension df) ∧
      ((dim.2.filter (fun p => p ∈ df.cols)).isEmpty = false →
        (dim.1, some (AnalisisDior.spec_promedio_dimension df dim.2)) ∈
          AnalisisDior.calcular_promedios_por_dimension df) := by
  intro dim hdim
  constructor
  · intro hemp v hvmem
    simp only [AnalisisDior.calcular_promedios_por_dimension, List.mem_filterMap] at hvmem
    obtain ⟨dim', hdim', heq⟩ := hvmem
    split at heq
    · exact absurd heq (by simp)
    next hcond =>
      rw [Option.some.injEq, Prod.mk.injEq] at heq
      have hd : dim' = dim := dimensiones_claves_unicas dim' hdim' dim hdim heq.1
      rw [hd] at hcond
      exact hcond hemp
  · intro hne
    have hnelist : dim.2.filter (fun p => p ∈ df.cols) ≠ [] := by
      intro h
      rw [h] at hne
      simp at hne
    simp only [AnalisisDior.calcular_promedios_por_dimension, List.mem_filterMap]
    refine ⟨dim, hdim, ?_⟩
    rw [if_neg (by simp [hne])]
    have hrow : ∀ r ∈ df.rows,
        AnalisisDior.rowMeanCells (AnalisisDior.selectCells df.cols
          (dim.2.filter (fun p => p ∈ df.cols)) r)
        = some (listMean ((dim.2.filter (fun p => p ∈ df.cols)).map
            (AnalisisDior.cellValue df.cols r))) := by
      intro r hr
      refine rowMean_all_numeric df.cols _ r ?_ (hwf r hr) (hnum r hr) hnelist
      intro p hp
      exact of_decide_eq_true (List.mem_filter.mp hp).2
    rw [List.map_congr_left hrow,
      seriesMean_map_some df.rows
        (fun r => listMean ((dim.2.filter (fun p => p ∈ df.cols)).map
          (AnalisisDior.cellValue df.cols r))) hrows]
    rfl

/-- Witness for C4 on a matrix holding only the first Liderazgo
question: the Liderazgo entry carries the spec score and the Trabajo en
equipo dimension is absent. -/
theorem c4_promedios_witness :
    ("Liderazgo", some (AnalisisDior.spec_promedio_dimension
        ⟨["2.1_LIDERAZGO_RESPESTUOSO"], [[.numero 3], [.numero 1]]⟩
        ["2.1_LIDERAZGO_RESPESTUOSO", "2.2_OPORTUNIDAD_DE_PROPONER_IDEAS",
         "2.3_ESPACIOS_ADECUADOS_RETROALIMENTACION"])) ∈
      AnalisisDior.calcular_promedios_por_dimension
        ⟨["2.1_LIDERAZGO_RESPESTUOSO"], [[.numero 3], [.numero 1]]⟩ ∧
    ("Trabajo en equipo", some 0) ∉
      AnalisisDior.calcular_promedios_por_dimension
        ⟨["2.1_LIDERAZGO_RESPESTUOSO"], [[.numero 3], [.numero 1]]⟩ := by
  have h := c4_promedios_por_dimension
    ⟨["2.1_LIDERAZGO_RESPESTUOSO"], [[.numero 3], [.numero 1]]⟩
    (by intro r hr; fin_cases hr <;> rfl)
    (by intro r hr c hc; fin_cases hr <;> fin_cases hc <;> exact ⟨_, rfl⟩)
    (by simp)
  refine ⟨(h ("Liderazgo",
      ["2.1_LIDERAZGO_RESPESTUOSO", "2.2_OPORTUNIDAD_DE_PROPONER_IDEAS",
       "2.3_ESPACIOS_ADECUADOS_RETROALIMENTACION"]) (by decide)).2 (by decide),
    (h ("Trabajo en equipo",
      ["1.1_A_GUSTO_TRABAJANDO_CON_OTRAS_GESTORAS",
       "1.2_LIBRE_EXPRESAR_IDEAS_SUGERENCIAS",
       "1.3_DECISIONES_IMPORTANTES_COMUNICADAS",
       "1.4_CONVERSACIONES_RESPETUOSAS"]) (by decide)).1 (by decide) (some 0)⟩

/-! ## C5: bounds of the dimension score -/

theorem encodeCelda_acotada (c : Celda) :
    ∃ q, AnalisisDior.encodeCelda c = Celda.numero q ∧ 0 ≤ q ∧ q ≤ 3 := by
  cases c with
  | texto s =>
    refine ⟨(AnalisisDior.MAPEO_RESPUESTAS.lookup s).getD 0, rfl, ?_⟩
    cases hls : AnalisisDior.MAPEO_RESPUESTAS.lookup s with
    | none => norm_num
    | some v =>
      have hmem := mem_of_lookup_eq_some hls
      simp only [AnalisisDior.MAPEO_RESPUESTAS, List.mem_cons, List.mem_singleton,
        Prod.mk.injEq, List.not_mem_nil, or_false] at hmem
      rcases hmem with ⟨_, rfl⟩ | ⟨_, rfl⟩ | ⟨_, rfl⟩ <;> norm_num
  | numero q => exact ⟨0, rfl, by norm_num⟩
  | nulo => exact ⟨0, rfl, by norm_num⟩

theorem encodeColumn_cols (d : DF) (p : String) :
    (AnalisisDior.encodeColumn d p).cols = d.cols := by
  unfold AnalisisDior.encodeColumn
  split <;> rfl

theorem encodeColumn_wf (d : DF) (p : String)
    (hwf : ∀ r ∈ d.rows, r.length = d.cols.length) :
    ∀ r ∈ (AnalisisDior.encodeColumn d p).rows,
      r.length = (AnalisisDior.encodeColumn d p).cols.length := by
  rw [encodeColumn_cols]
  unfold AnalisisDior.encodeColumn
  split
  · intro r hr
    obtain ⟨r0, hr0, rfl⟩ := List.mem_map.mp hr
    rw [List.length_set]
    exact hwf r0 hr0
  · exact hwf

theorem encodeColumn_acotada_other (d : DF) (p : String) (j : ℕ)
    (hb : AnalisisDior.columnaAcotada d j) :
    AnalisisDior.columnaAcotada (AnalisisDior.encodeColumn d p) j := by
  unfold AnalisisDior.encodeColumn
  split
  · intro r hr
    obtain ⟨r0, hr0, rfl⟩ := List.mem_map.mp hr
    obtain ⟨q, hq, hq1, hq2⟩ := hb r0 hr0
    by_cases hij : d.cols.indexOf p = j
    · subst hij
      have hjlen : d.cols.indexOf p < r0.length := by
        by_contra hge
        rw [List.getD_eq_getElem?_getD, List.getElem?_eq_none (by omega)] at hq
        simp at hq
      obtain ⟨q2, hq2', hb1, hb2⟩ := encodeCelda_acotada (r0.getD (d.cols.indexOf p) Celda.nulo)
      refine ⟨q2, ?_, hb1, hb2⟩
      rw [List.getD_eq_getElem?_getD, List.getElem?_set]
      simp only [if_pos rfl, if_pos hjlen]
      simpa using hq2'
    · refine ⟨q, ?_, hq1, hq2⟩
      rw [List.getD_eq_getElem?_getD, List.getElem?_set_ne hij]
      rw [List.getD_eq_getElem?_getD] at hq
      exact hq
  · exact hb

theorem encodeColumn_acotada_self (d : DF) (p : String)
    (hp : p ∈ d.cols) (hwf : ∀ r ∈ d.rows, r.length = d.cols.length) :
    AnalisisDior.columnaAcotada (AnalisisDior.encodeColumn d p) (d.cols.indexOf p) := by
  unfold AnalisisDior.encodeColumn
  rw [if_pos hp]
  intro r hr
  obtain ⟨r0, hr0, rfl⟩ := List.mem_map.mp hr
  have hlt : d.cols.indexOf p < r0.length := by
    rw [hwf r0 hr0]
    exact indexOf_lt_length_of_mem hp
  obtain ⟨q2, hq2, hb1, hb2⟩ := encodeCelda_acotada (r0.getD (d.cols.indexOf p) Celda.nulo)
  refine ⟨q2, ?_, hb1, hb2⟩
  rw [List.getD_eq_getElem?_getD, List.getElem?_set]
  simp only [if_pos rfl, if_pos hlt]
  simpa using hq2

theorem foldl_encodeColumn_cols (qs : List String) (d : DF) :
    ((qs.foldl AnalisisDior.encodeColumn d).cols) = d.cols := by
  induction qs generalizing d with
  | nil => rfl
  | cons q qs ih =>
    rw [List.foldl_cons, ih, encodeColumn_cols]

theorem foldl_encodeColumn_wf (qs : List String) (d : DF)
    (hwf : ∀ r ∈ d.rows, r.length = d.cols.length) :
    ∀ r ∈ (qs.foldl AnalisisDior.encodeColumn d).rows,
      r.length = (qs.foldl AnalisisDior.encodeColumn d).cols.length := by
  induction qs generalizing d with
  | nil => exact hwf
  | cons q qs ih =>
    rw [List.foldl_cons]
    refine ih _ ?_
    rw [show (AnalisisDior.encodeColumn d q).cols.length = d.cols.length by
      rw [encodeColumn_cols]]
    exact fun r hr => (encodeColumn_wf d q hwf r hr).trans (by rw [encodeColumn_cols])

theorem foldl_encodeColumn_acotada (qs : List String) (d : DF) (j : ℕ)
    (hb : AnalisisDior.columnaAcotada d j) :
    AnalisisDior.columnaAcotada (qs.foldl AnalisisDior.encodeColumn d) j := by
  induction qs generalizing d with
  | nil => exact hb
  | cons q qs ih =>
    rw [List.foldl_cons]
    exact ih _ (encodeColumn_acotada_other d q j hb)

theorem foldl_encodeColumn_acotada_de_mem (qs : List String) (d : DF)
    (hwf : ∀ r ∈ d.rows, r.length = d.cols.length) :
    ∀ p ∈ qs, p ∈ d.cols →
      AnalisisDior.columnaAcotada (qs.foldl AnalisisDior.encodeColumn d) (d.cols.indexOf p) := by
  induction qs generalizing d with
  | nil => intro p hp; simp at hp
  | cons q qs ih =>
    intro p hp hpc
    rw [List.foldl_cons]
    rcases List.mem_cons.mp hp with rfl | hp2
    · by_cases hqc : p ∈ d.cols
      · exact foldl_encodeColumn_acotada qs _ _ (encodeColumn_acotada_self d p hqc hwf)
      · exact absurd hpc hqc
    · have hwf2 : ∀ r ∈ (AnalisisDior.encodeColumn d q).rows,
          r.length = (AnalisisDior.encodeColumn d q).cols.length :=
        encodeColumn_wf d q hwf
      have hpc2 : p ∈ (AnalisisDior.encodeColumn d q).cols := by
        rw [encodeColumn_cols]; exact hpc
      have := ih (AnalisisDior.encodeColumn d q) hwf2 p hp2 hpc2
      rwa [encodeColumn_cols] at this

theorem foldl_foldl_eq_foldl_flatMap {β γ : Type} (L : List (γ × List String))
    (f : β → String → β) (d : β) :
    L.foldl (fun acc g => g.2.foldl f acc) d = (L.flatMap Prod.snd).foldl f d := by
  induction L generalizing d with
  | nil => rfl
  | cons hd tl ih =>
    rw [List.foldl_cons, ih, List.flatMap_cons, List.foldl_append]

theorem seriesMean_eq_some {s : List (Option ℚ)} {v : ℚ}
    (h : seriesMean s = some v) :
    s.filterMap id ≠ [] ∧ v = listMean (s.filterMap id) := by
  simp only [seriesMean] at h
  split at h
  · exact absurd h (by simp)
  next hcond =>
    rw [Option.some.injEq] at h
    refine ⟨?_, h.symm⟩
    intro hnil
    rw [hnil] at hcond
    simp at hcond

/-- C5 (as amended): every dimension score computed from a matrix
produced by `preparar_datos` lies within `[0, 3]` — `0`, not `1`, is the
attainable minimum, because unrecognized or missing answers are encoded
as `0`. -/
theorem c5_amended_puntaje_en_rango (df0 dfp : DF)
    (hprep : AnalisisDior.preparar_datos (some df0) = some dfp)
    (hwf : ∀ r ∈ df0.rows, r.length = df0.cols.length) :
    ∀ nombre v, (nombre, some v) ∈ AnalisisDior.calcular_promedios_por_dimension dfp →
      0 ≤ v ∧ v ≤ 3 := by
  have hfold : dfp =
      (AnalisisDior.DIMENSIONES.flatMap Prod.snd).foldl AnalisisDior.encodeColumn df0 := by
    simp only [AnalisisDior.preparar_datos] at hprep
    split at hprep
    · exact absurd hprep (by simp)
    · rw [Option.some.injEq] at hprep
      rw [← hprep, foldl_foldl_eq_foldl_flatMap]
  have hcols : dfp.cols = df0.cols := by rw [hfold, foldl_encodeColumn_cols]
  intro nombre v hmem
  simp only [AnalisisDior.calcular_promedios_por_dimension, List.mem_filterMap] at hmem
  obtain ⟨dim, hdim, heq⟩ := hmem
  split at heq
  · exact absurd heq (by simp)
  next hcond =>
    rw [Option.some.injEq, Prod.mk.injEq] at heq
    obtain ⟨hk, hv⟩ := heq
    obtain ⟨hne1, hveq⟩ := seriesMean_eq_some hv
    have houter : ∀ x ∈ (dfp.rows.map (fun r => AnalisisDior.rowMeanCells
        (AnalisisDior.selectCells dfp.cols (dim.2.filter (fun p => p ∈ dfp.cols)) r))).filterMap id,
        0 ≤ x ∧ x ≤ 3 := by
      intro x hx
      rw [List.mem_filterMap] at hx
      obtain ⟨o, ho, hoid⟩ := hx
      rw [List.mem_map] at ho
      obtain ⟨r, hr, rfl⟩ := ho
      have hrm : AnalisisDior.rowMeanCells (AnalisisDior.selectCells dfp.cols
          (dim.2.filter (fun p => p ∈ dfp.cols)) r) = some x := hoid
      unfold AnalisisDior.rowMeanCells at hrm
      obtain ⟨hne2, hxeq⟩ := seriesMean_eq_some hrm
      have hinner : ∀ y ∈ ((AnalisisDior.selectCells dfp.cols
          (dim.2.filter (fun p => p ∈ dfp.cols)) r).map Celda.toNum).filterMap id,
          0 ≤ y ∧ y ≤ 3 := by
        intro y hy
        rw [List.mem_filterMap] at hy
        obtain ⟨o2, ho2, ho2id⟩ := hy
        rw [List.mem_map] at ho2
        obtain ⟨cell, hcell, rfl⟩ := ho2
        unfold AnalisisDior.selectCells at hcell
        rw [List.mem_map] at hcell
        obtain ⟨p, hp, rfl⟩ := hcell
        have hpd : p ∈ dim.2 := (List.mem_filter.mp hp).1
        have hpc : p ∈ dfp.cols := of_decide_eq_true (List.mem_filter.mp hp).2
        have hpc0 : p ∈ df0.cols := by rwa [hcols] at hpc
        have hpall : p ∈ AnalisisDior.DIMENSIONES.flatMap Prod.snd :=
          List.mem_flatMap.mpr ⟨dim, hdim, hpd⟩
        have hbnd := foldl_encodeColumn_acotada_de_mem
          (AnalisisDior.DIMENSIONES.flatMap Prod.snd) df0 hwf p hpall hpc0
        rw [← hfold] at hbnd
        obtain ⟨q, hq, hb1, hb2⟩ := hbnd r hr
        have hqc : r.getD (dfp.cols.indexOf p) Celda.nulo = Celda.numero q := by
          rw [hcols]
          exact hq
        rw [hqc] at ho2id
        simp only [id, Celda.toNum, Option.some.injEq] at ho2id
        rw [← ho2id]
        exact ⟨hb1, hb2⟩
      rw [hxeq]
      exact listMean_bounds hne2 hinner
    rw [hveq]
    exact listMean_bounds hne1 houter

theorem seriesMean_some_cero : seriesMean [some (0 : ℚ)] = some 0 := by
  show (if (List.filterMap id [some (0 : ℚ)]).isEmpty then none
    else some (listMean (List.filterMap id [some (0 : ℚ)]))) = some 0
  norm_num [listMean]
  refine ⟨by simp, Or.inl ?_⟩
  show List.sum [(0 : ℚ)] = 0
  simp

/-- On the one-column, one-respondent matrix whose single (unrecognized)
answer was encoded to 0, the Trabajo en equipo dimension scores 0. -/
theorem calcular_ejemplo_cero :
    ("Trabajo en equipo", some 0) ∈ AnalisisDior.calcular_promedios_por_dimension
      ⟨["1.1_A_GUSTO_TRABAJANDO_CON_OTRAS_GESTORAS"], [[.numero 0]]⟩ := by
  simp only [AnalisisDior.calcular_promedios_por_dimension, List.mem_filterMap]
  refine ⟨("Trabajo en equipo",
    ["1.1_A_GUSTO_TRABAJANDO_CON_OTRAS_GESTORAS",
     "1.2_LIBRE_EXPRESAR_IDEAS_SUGERENCIAS",
     "1.3_DECISIONES_IMPORTANTES_COMUNICADAS",
     "1.4_CONVERSACIONES_RESPETUOSAS"]), by decide, ?_⟩
  have hfil : (["1.1_A_GUSTO_TRABAJANDO_CON_OTRAS_GESTORAS",
     "1.2_LIBRE_EXPRESAR_IDEAS_SUGERENCIAS",
     "1.3_DECISIONES_IMPORTANTES_COMUNICADAS",
     "1.4_CONVERSACIONES_RESPETUOSAS"].filter
       (fun p => p ∈ (DF.mk ["1.1_A_GUSTO_TRABAJANDO_CON_OTRAS_GESTORAS"] [[Celda.numero 0]]).cols))
     = ["1.1_A_GUSTO_TRABAJANDO_CON_OTRAS_GESTORAS"] := by decide
  have hrow : AnalisisDior.rowMeanCells (AnalisisDior.selectCells
      (DF.mk ["1.1_A_GUSTO_TRABAJANDO_CON_OTRAS_GESTORAS"] [[Celda.numero 0]]).cols
      ["1.1_A_GUSTO_TRABAJANDO_CON_OTRAS_GESTORAS"] [Celda.numero 0]) = some 0 := by
    have hsel : AnalisisDior.selectCells
        (DF.mk ["1.1_A_GUSTO_TRABAJANDO_CON_OTRAS_GESTORAS"] [[Celda.numero 0]]).cols
        ["1.1_A_GUSTO_TRABAJANDO_CON_OTRAS_GESTORAS"] [Celda.numero 0] = [Celda.numero 0] := by
      decide
    rw [AnalisisDior.rowMeanCells, hsel]
    exact seriesMean_some_cero
  simp only [hfil, List.isEmpty_cons]
  rw [if_neg (by simp)]
  rw [List.map_cons, List.map_nil, hrow]
  rw [seriesMean_some_cero]

/-- C5 counterexample: a single respondent whose only answer is
unrecognized text is encoded to 0, and the resulting dimension score is
0, below the claimed lower bound 1 of `[1, 3]`. -/
theorem c5_counterexample_puntaje_fuera_de_rango :
    AnalisisDior.preparar_datos (some ⟨["1.1_A_GUSTO_TRABAJANDO_CON_OTRAS_GESTORAS"],
        [[.texto "HOLA"]]⟩)
      = some ⟨["1.1_A_GUSTO_TRABAJANDO_CON_OTRAS_GESTORAS"], [[.numero 0]]⟩ ∧
    ("Trabajo en equipo", some 0) ∈ AnalisisDior.calcular_promedios_por_dimension
      ⟨["1.1_A_GUSTO_TRABAJANDO_CON_OTRAS_GESTORAS"], [[.numero 0]]⟩ ∧
    ¬ ((1 : ℚ) ≤ 0) := by
  exact ⟨by set_option maxRecDepth 4000 in decide, calcular_ejemplo_cero, by norm_num⟩

/-- Witness for C5 (amended), applying the bound at the encoded
one-respondent matrix whose Trabajo en equipo score is 0. -/
theorem c5_amended_witness_rango : (0 : ℚ) ≤ 0 ∧ (0 : ℚ) ≤ 3 :=
  c5_amended_puntaje_en_rango
    ⟨["1.1_A_GUSTO_TRABAJANDO_CON_OTRAS_GESTORAS"], [[.texto "HOLA"]]⟩
    ⟨["1.1_A_GUSTO_TRABAJANDO_CON_OTRAS_GESTORAS"], [[.numero 0]]⟩
    (by set_option maxRecDepth 4000 in decide)
    (by intro r hr; fin_cases hr <;> rfl)
    "Trabajo en equipo" 0 calcular_ejemplo_cero

/-! ## C10: the preparation functions write only to the copy -/

theorem le_foldr_max (l : List ℕ) (x : ℕ) (hx : x ∈ l) : x ≤ l.foldr max 0 := by
  induction l with
  | nil => simp at hx
  | cons hd tl ih =>
    rw [List.foldr_cons]
    rcases List.mem_cons.mp hx with rfl | hx2
    · exact le_max_left _ _
    · exact le_trans (ih hx2) (le_max_right _ _)

theorem ref_lt_refFresca (h : Almacen) (r : ℕ) (d : DF)
    (hget : almacenGet h r = some d) : r < refFresca h := by
  unfold almacenGet at hget
  cases hfind : h.find? (fun p => p.1 == r) with
  | none => rw [hfind] at hget; simp at hget
  | some pr =>
    have hmem := List.mem_of_find?_eq_some hfind
    have hp := List.find?_some hfind
    have hr : pr.1 = r := by simpa using hp
    have hle : pr.1 ≤ (h.map (fun p => p.1)).foldr max 0 :=
      le_foldr_max _ _ (List.mem_map.mpr ⟨pr, hmem, rfl⟩)
    unfold refFresca
    omega

theorem almacenGet_cons_ne (h : Almacen) (s r : ℕ) (d : DF) (hne : r ≠ s) :
    almacenGet ((s, d) :: h) r = almacenGet h r := by
  have hb : ((s, d).1 == r) = false := beq_eq_false_iff_ne.mpr (fun hh => hne hh.symm)
  simp [almacenGet, List.find?, hb]

theorem almacenGet_set_ne (h : Almacen) (s r : ℕ) (d : DF) (hne : r ≠ s) :
    almacenGet (almacenSet h s d) r = almacenGet h r := by
  induction h with
  | nil => rfl
  | cons pr t ih =>
    obtain ⟨k, v⟩ := pr
    by_cases hks : k = s
    · subst hks
      have h2 : ((k : ℕ) == r) = false := beq_eq_false_iff_ne.mpr (fun hh => hne (hh ▸ rfl))
      simp [almacenSet, almacenGet, List.find?, h2, beq_self_eq_true] at ih ⊢
      exact ih
    · have h1 : ((k : ℕ) == s) = false := beq_eq_false_iff_ne.mpr hks
      by_cases hkr : k = r
      · subst hkr
        simp [almacenSet, almacenGet, List.find?, h1, beq_self_eq_true]
      · have h2 : ((k : ℕ) == r) = false := beq_eq_false_iff_ne.mpr hkr
        simp [almacenSet, almacenGet, List.find?, h1, h2] at ih ⊢
        exact ih

theorem foldl_preserva {α σ γ : Type} (G : α → γ) (f : α → σ → α) (l : List σ) (a : α)
    (hf : ∀ acc x, G (f acc x) = G acc) : G (l.foldl f a) = G a := by
  induction l generalizing a with
  | nil => rfl
  | cons hd tl ih =>
    rw [List.foldl_cons, ih, hf]

theorem encodeStepStore_get_ne (rN : ℕ) (h : Almacen) (p : String) (r : ℕ)
    (hne : r ≠ rN) :
    almacenGet (AnalisisDior.encodeStepStore rN h p) r = almacenGet h r := by
  unfold AnalisisDior.encodeStepStore
  cases hg : almacenGet h rN with
  | none => rfl
  | some d => exact almacenGet_set_ne h rN r _ hne

theorem prepararPasoStore_get_ne (rN : ℕ) (h : Almacen) (par : String × String) (r : ℕ)
    (hne : r ≠ rN) :
    almacenGet (Correlacion.prepararPasoStore rN h par) r = almacenGet h r := by
  unfold Correlacion.prepararPasoStore
  cases hg : almacenGet h rN with
  | none => rfl
  | some d => exact almacenGet_set_ne h rN r _ hne

/-- C10: both preparation functions operate on a freshly allocated copy
of their input frame — after `preparar_datos` (`analisis_dior.py` line
84 onward) and after `preparar_dataframe` (`correlacion.py` line 17
onward / `clusters.py` line 23 onward) run on the object held at `r`,
the original object at `r` is unchanged; only the returned copy carries
the numeric encoding. -/
theorem c10_preparacion_preserva_original (h : Almacen) (r : ℕ) (df : DF)
    (hget : almacenGet h r = some df) :
    almacenGet (AnalisisDior.preparar_datos_store h r).1 r = some df ∧
    almacenGet (Correlacion.preparar_dataframe_store h r).1 r = some df := by
  have hlt := ref_lt_refFresca h r df hget
  have hne : r ≠ refFresca h := Nat.ne_of_lt hlt
  constructor
  · unfold AnalisisDior.preparar_datos_store
    simp only [hget]
    by_cases hv : df.isVacio
    · rw [if_pos hv]
      exact hget
    · rw [if_neg hv]
      dsimp only
      exact (foldl_preserva (fun hh => almacenGet hh r) _ _ _
        (fun acc dim => foldl_preserva (fun hh => almacenGet hh r) _ _ _
          (fun acc2 p => encodeStepStore_get_ne (refFresca h) acc2 p r hne))).trans
        ((almacenGet_cons_ne h (refFresca h) r df hne).trans hget)
  · unfold Correlacion.preparar_dataframe_store
    simp only [hget]
    exact (foldl_preserva (fun hh => almacenGet hh r) _ _ _
      (fun acc g => foldl_preserva (fun hh => almacenGet hh r) _ _ _
        (fun acc2 par => prepararPasoStore_get_ne (refFresca h) acc2 par r hne))).trans
      ((almacenGet_cons_ne h (refFresca h) r df hne).trans hget)

/-- Witness for C10: a store holding one one-cell frame at reference 0;
after both preparations the object at 0 still holds the original raw
text. -/
theorem c10_preparacion_witness :
    almacenGet (AnalisisDior.preparar_datos_store
        [(0, ⟨["2.1_LIDERAZGO_RESPESTUOSO"], [[.texto "DE ACUERDO"]]⟩)] 0).1 0 =
      some ⟨["2.1_LIDERAZGO_RESPESTUOSO"], [[.texto "DE ACUERDO"]]⟩ ∧
    almacenGet (Correlacion.preparar_dataframe_store
        [(0, ⟨["2.1_LIDERAZGO_RESPESTUOSO"], [[.texto "DE ACUERDO"]]⟩)] 0).1 0 =
      some ⟨["2.1_LIDERAZGO_RESPESTUOSO"], [[.texto "DE ACUERDO"]]⟩ :=
  c10_preparacion_preserva_original
    [(0, ⟨["2.1_LIDERAZGO_RESPESTUOSO"], [[.texto "DE ACUERDO"]]⟩)] 0
    ⟨["2.1_LIDERAZGO_RESPESTUOSO"], [[.texto "DE ACUERDO"]]⟩ rfl
